import Mathlib

/-!
Shallow embedding of `proxy_tools/proxy_bot.py` and proofs about the claims
of its specification.

Modelling conventions:
* Python strings are modelled as `List Char` (named `Str` below), so that
  character-level operations (stripping, splitting, percent-decoding) are
  plain structural recursion.
* Wall-clock durations (Python floats from `time.time()`) are modelled as
  integers, in milliseconds: an exact-arithmetic abstraction of the
  real-valued timestamps (no claim depends on sub-millisecond values).
* Network effects (the HTTP fetch, the TCP connect, the payload write and
  the secondary read of `check_proxy_socket`) are modelled by explicit
  outcome/environment values passed to the embedded functions; the probe
  additionally records, as ghost observables, whether a connection was
  established and whether `writer.close()` was called, so that resource
  handling can be stated.
* The ASCII fragment of the Python string primitives is modelled
  (`str.strip`, `str.split`, `int`, `urllib.parse.unquote_plus`); Unicode
  digits, non-ASCII whitespace and multi-byte percent-encoded sequences are
  outside the modelled fragment (none of the claims depends on them).
-/

/-- Python strings, modelled as lists of characters. -/
abbrev Str := List Char

/-- ASCII whitespace as recognised by Python `str.strip()` and `int()`. -/
def pyIsSpace (c : Char) : Bool :=
  c = ' ' || c = '\t' || c = '\n' || c = '\r' || c = '\x0b' || c = '\x0c'

/-- Python `s.strip()`: remove whitespace from both ends. -/
def pyStrip (s : Str) : Str :=
  ((s.dropWhile pyIsSpace).reverse.dropWhile pyIsSpace).reverse

/-- Python `s.split(sep)` for a one-character separator: split on every
occurrence, keeping empty fields; the empty string yields one empty field. -/
def pySplitOn (sep : Char) : Str → List Str
  | [] => [[]]
  | c :: cs =>
    if c = sep then [] :: pySplitOn sep cs
    else
      match pySplitOn sep cs with
      | [] => [[c]]
      | l :: ls => (c :: l) :: ls

/-- Inverse of `pySplitOn`: join fields with the separator. -/
def joinOn (sep : Char) : List Str → Str
  | [] => []
  | [l] => l
  | l :: ls => l ++ sep :: joinOn sep ls

/-- Value of a hexadecimal digit, if any. -/
def hexVal (c : Char) : Option Nat :=
  if '0' ≤ c ∧ c ≤ '9' then some (c.toNat - '0'.toNat)
  else if 'a' ≤ c ∧ c ≤ 'f' then some (c.toNat - 'a'.toNat + 10)
  else if 'A' ≤ c ∧ c ≤ 'F' then some (c.toNat - 'A'.toNat + 10)
  else none

/-- Python `urllib.parse.unquote` on the ASCII fragment: a percent sign
followed by two hex digits decodes to that character; an invalid escape is
kept literally. -/
def pyUnquote : Str → Str
  | [] => []
  | '%' :: a :: b :: rest2 =>
    match hexVal a, hexVal b with
    | some x, some y => Char.ofNat (16 * x + y) :: pyUnquote rest2
    | _, _ => '%' :: pyUnquote (a :: b :: rest2)
  | '%' :: rest => '%' :: pyUnquote rest
  | c :: rest => c :: pyUnquote rest

/-- Python `urllib.parse.unquote_plus`: first replace plus signs by spaces,
then percent-decode (so an encoded plus survives decoding). -/
def pyUnquotePlus (s : Str) : Str :=
  pyUnquote (s.map fun c => if c = '+' then ' ' else c)

/-- Digit run of Python `int(s)`: decimal digits with single underscores
allowed between digits, accumulating the value. -/
def digitsValAux : Nat → Str → Option Nat
  | acc, [] => some acc
  | acc, '_' :: c :: rest =>
    if c.isDigit then digitsValAux (10 * acc + (c.toNat - '0'.toNat)) rest else none
  | acc, c :: rest =>
    if c.isDigit then digitsValAux (10 * acc + (c.toNat - '0'.toNat)) rest else none

/-- Value of a nonempty digit sequence (underscores only between digits). -/
def digitsVal : Str → Option Nat
  | [] => none
  | c :: rest =>
    if c.isDigit then digitsValAux (c.toNat - '0'.toNat) rest else none

/-- Python `int(s)` in base 10 (ASCII fragment): surrounding whitespace,
an optional sign, then digits with optional single interior underscores.
Returns `none` where Python raises `ValueError`. -/
def pyInt (s : Str) : Option Int :=
  match pyStrip s with
  | '+' :: rest => (digitsVal rest).map Int.ofNat
  | '-' :: rest => (digitsVal rest).map (fun n => -(n : Int))
  | rest => (digitsVal rest).map Int.ofNat

/-- The query component extracted by `urllib.parse.urlparse(link).query`:
the characters after the first question mark of the part that precedes the
first hash sign. -/
def urlQuery (s : Str) : Str :=
  ((s.takeWhile (· ≠ '#')).dropWhile (· ≠ '?')).drop 1

/-- Python `name_value.split('=', 1)` when an equals sign is present:
the name before the first equals sign and the value after it. -/
def splitEq1 (nv : Str) : Option (Str × Str) :=
  if nv.any (· = '=') then
    some (nv.takeWhile (· ≠ '='), (nv.dropWhile (· ≠ '=')).drop 1)
  else none

/-- Python `urllib.parse.parse_qsl(qs)` with default arguments: split the
query on ampersands; skip empty fields, fields without an equals sign and
fields with an empty value; decode name and value with unquote-plus. -/
def qsPairs (q : Str) : List (Str × Str) :=
  (pySplitOn '&' q).filterMap fun nv =>
    if nv = [] then none
    else
      match splitEq1 nv with
      | none => none
      | some (name, value) =>
        if value = [] then none
        else some (pyUnquotePlus name, pyUnquotePlus value)

/-- Lookup of `parse_qs(q).get(key, [None])[0]`: the value of the first
pair whose name is the key. -/
def qsGet (q : Str) (key : Str) : Option Str :=
  ((qsPairs q).find? (fun kv => kv.1 = key)).map (·.2)

/-- Configuration constant `CHECK_TIMEOUT` (seconds, connect timeout). -/
def CHECK_TIMEOUT : Nat := 10

/-- Configuration constant `MAX_PROXIES_TO_CHECK`. -/
def MAX_PROXIES_TO_CHECK : Nat := 1000

/-- Configuration constant `MAX_PROXIES_TO_SEND`. -/
def MAX_PROXIES_TO_SEND : Nat := 5

/-- Outcome of the HTTP GET performed by `get_proxies`: either some failure
(a transport error, or a non-success status making `raise_for_status` raise)
or a successful response with its body text. -/
inductive FetchOutcome
  | error
  | success (body : Str)

/-- Embedding of `get_proxies`: on any fetch failure return the empty list;
on success return `response.text.strip().split('\n')`. -/
def get_proxies : FetchOutcome → List Str
  | .error => []
  | .success body => pySplitOn '\n' (pyStrip body)

/-- Embedding of `parse_tg_link`: require the `tg://` prefix, extract the
query parameters `server`, `port`, `secret`; all three must be present with
truthy (nonempty) values and the port must parse as a base-10 integer;
every failure (including the exception of `int(port)`) yields `none`. -/
def parse_tg_link (link : Str) : Option (Str × Int × Str) :=
  if ("tg://".toList).isPrefixOf link then
    match qsGet (urlQuery link) ("server".toList), qsGet (urlQuery link) ("port".toList),
        qsGet (urlQuery link) ("secret".toList) with
    | some server, some port, some secret =>
      if server ≠ [] ∧ port ≠ [] ∧ secret ≠ [] then
        match pyInt port with
        | some n => some (server, n, secret)
        | none => none
      else none
    | _, _, _ => none
  else none

example : parse_tg_link ("tg://proxy?server=1.2.3.4&port=443&secret=ee00".toList)
    = some ("1.2.3.4".toList, 443, "ee00".toList) := by decide

example : parse_tg_link ("tg://proxy?server=1.2.3.4&secret=ee00".toList) = none := by decide

example : parse_tg_link ("tg://proxy?server=&port=443&secret=ee00".toList) = none := by decide

example : parse_tg_link ("tg://proxy?server=h&port=4x3&secret=s".toList) = none := by decide

example : parse_tg_link ("http://proxy?server=h&port=1&secret=s".toList) = none := by decide

example : get_proxies (.success ("  a \n\nb\n".toList)) = ["a ".toList, [], "b".toList] := by decide

example : pyInt ("  -1_0 ".toList) = some (-10) := by decide

example : pyInt ("1_".toList) = none := by decide

/-- Outcome of the secondary read `await asyncio.wait_for(reader.read(1), timeout=2.0)`:
it returns bytes (possibly zero bytes when the remote closed), times out,
or raises some other exception. -/
inductive ReadOutcome
  | ret (b : List Nat)
  | timeout
  | error
deriving DecidableEq

/-- Network environment of one probe attempt: whether the initial connect
succeeds within the connect timeout, whether the payload write
(`writer.write` / `await writer.drain`) succeeds or raises, the outcome of
the secondary read, and the wall-clock duration (integral milliseconds) of each of
the three phases. -/
structure ProbeEnv where
  connect : Bool
  connectMs : Int
  writeOk : Bool
  writeMs : Int
  read : ReadOutcome
  readMs : Int
deriving DecidableEq

/-- Result of one probe attempt: the four returned values of
`check_proxy_socket`, plus two ghost observables of the execution —
whether a TCP connection was established and whether `writer.close()`
was called before returning. -/
structure ProbeRun where
  success : Bool
  latency : Int
  link : Str
  host : Option Str
  connected : Bool
  closed : Bool
deriving DecidableEq

/-- Embedding of `check_proxy_socket`. Mirrors the source paths:
parse failure returns immediately; a connect failure is caught by the outer
handler and returns `(False, 0, link, host)`; after a successful connect the
64-byte payload is written — if the write raises, the outer handler returns
without closing the connection; the secondary read then classifies: zero
bytes read closes and returns not reachable, any other read exception closes
and returns not reachable, a timeout or data falls through to the reachable
return whose latency is the whole elapsed time since before the connect. -/
def check_proxy_socket (env : ProbeEnv) (proxy_link : Str) : ProbeRun :=
  match parse_tg_link proxy_link with
  | none => ⟨false, 0, proxy_link, none, false, false⟩
  | some (host, _port, _secret) =>
    if env.connect then
      if env.writeOk then
        match env.read with
        | .ret b =>
          if b = [] then
            ⟨false, 0, proxy_link, some host, true, true⟩
          else
            ⟨true, env.connectMs + env.writeMs + env.readMs, proxy_link, some host, true, true⟩
        | .timeout =>
          ⟨true, env.connectMs + env.writeMs + env.readMs, proxy_link, some host, true, true⟩
        | .error =>
          ⟨false, 0, proxy_link, some host, true, true⟩
      else
        ⟨false, 0, proxy_link, some host, true, false⟩
    else
      ⟨false, 0, proxy_link, some host, false, false⟩

/-- The tuple `(success, latency, link, host)` actually returned to the
caller of `check_proxy_socket` (without the ghost observables). -/
def probeResult (r : ProbeRun) : Bool × Int × Str × Option Str :=
  (r.success, r.latency, r.link, r.host)

/-- The aggregation loop of `check_all_proxies` (lines 115-124): keep a
result when it is a success, its resolved host is truthy (not None and
nonempty) and the host was not seen before; record the host as seen. -/
def collectWorking : List (Bool × Int × Str × Option Str) → List Str → List (Str × Int × Str)
  | [], _ => []
  | (success, latency, link, ip) :: rs, seen =>
    match ip with
    | some h =>
      if success then
        if h ≠ [] then
          if h ∈ seen then collectWorking rs seen
          else (link, latency, h) :: collectWorking rs (h :: seen)
        else collectWorking rs seen
      else collectWorking rs seen
    | none => collectWorking rs seen

/-- The concurrent gather of `check_all_proxies`: one probe per candidate,
each with its own network environment (indexed by position), results in
candidate order. -/
def probeAll (envs : Nat → ProbeEnv) : List Str → Nat → List (Bool × Int × Str × Option Str)
  | [], _ => []
  | p :: ps, i => probeResult (check_proxy_socket (envs i) p) :: probeAll envs ps (i + 1)

/-- Embedding of `check_all_proxies`: probe the first
`MAX_PROXIES_TO_CHECK` candidates and aggregate with the dedup loop. -/
def check_all_proxies (envs : Nat → ProbeEnv) (proxies : List Str) : List (Str × Int × Str) :=
  collectWorking (probeAll envs (proxies.take MAX_PROXIES_TO_CHECK) 0) []

/-- The sort of `main` (line 171): `working_proxies.sort(key=lambda x: x[1])`,
an ascending sort on the latency component (modelled by insertion sort; the
claims use only that the output is a latency-sorted permutation of the
input, which holds of the source sort as well). -/
def sortWorking (ws : List (Str × Int × Str)) : List (Str × Int × Str) :=
  ws.insertionSort (fun a b => a.2.1 ≤ b.2.1)

/-- The ranked output of `main`: dedup results, then sort by latency. -/
def rankProxies (results : List (Bool × Int × Str × Option Str)) : List (Str × Int × Str) :=
  sortWorking (collectWorking results [])

/-- Embedding of `format_telegram_link`: the identity on the raw link. -/
def format_telegram_link (proxy_str : Str) : Str :=
  proxy_str

/-- The hyperlink targets of the rendered message (lines 188-197 of `main`):
walk the ranked list, stop once `MAX_PROXIES_TO_SEND` links were emitted,
skip falsy (empty) links without incrementing the counter. -/
def messageLinks : List (Str × Int × Str) → Nat → List Str
  | [], _ => []
  | (p, _latency, _ip) :: rest, count =>
    if MAX_PROXIES_TO_SEND ≤ count then []
    else if format_telegram_link p ≠ [] then
      format_telegram_link p :: messageLinks rest (count + 1)
    else messageLinks rest count

/-- The full pipeline of `main` from fetched candidates and a network
environment to the hyperlink targets of the published message. -/
def publishedLinks (envs : Nat → ProbeEnv) (proxies : List Str) : List Str :=
  messageLinks (sortWorking (check_all_proxies envs proxies)) 0

example :
    probeResult (check_proxy_socket ⟨true, 100, true, 5, .timeout, 2000⟩
      ("tg://proxy?server=1.2.3.4&port=443&secret=ee00".toList))
      = (true, 2105, "tg://proxy?server=1.2.3.4&port=443&secret=ee00".toList,
         some ("1.2.3.4".toList)) := by decide

example :
    probeResult (check_proxy_socket ⟨true, 100, true, 5, .ret [], 1⟩
      ("tg://proxy?server=1.2.3.4&port=443&secret=ee00".toList))
      = (false, 0, "tg://proxy?server=1.2.3.4&port=443&secret=ee00".toList,
         some ("1.2.3.4".toList)) := by decide

example :
    collectWorking [(true, 5, "a".toList, some ("h".toList)),
                    (true, 3, "b".toList, some ("h".toList)),
                    (false, 0, "c".toList, some ("k".toList))] []
      = [("a".toList, 5, "h".toList)] := by decide

example :
    publishedLinks (fun _ => ⟨true, 100, true, 5, .timeout, 2000⟩)
      ["tg://proxy?server=1.2.3.4&port=443&secret=ee00".toList]
      = ["tg://proxy?server=1.2.3.4&port=443&secret=ee00".toList] := by decide

/-! Helper lemmas shared by the claim theorems. -/

theorem parse_tg_link_fields (s sv : Str) (n : Int) (sc : Str)
    (h : parse_tg_link s = some (sv, n, sc)) :
    qsGet (urlQuery s) ("server".toList) = some sv ∧
    (∃ p, qsGet (urlQuery s) ("port".toList) = some p ∧ pyInt p = some n) ∧
    qsGet (urlQuery s) ("secret".toList) = some sc ∧ sv ≠ [] := by
  unfold parse_tg_link at h
  split at h
  · split at h
    · rename_i server pv secret hs hpv hsec
      by_cases hne : server ≠ [] ∧ pv ≠ [] ∧ secret ≠ []
      · rw [if_pos hne] at h
        cases hpi : pyInt pv with
        | none => rw [hpi] at h; simp at h
        | some m =>
          rw [hpi] at h
          simp only [Option.some.injEq, Prod.mk.injEq] at h
          obtain ⟨e1, e2, e3⟩ := h
          subst e1; subst e2; subst e3
          exact ⟨hs, ⟨pv, hpv, hpi⟩, hsec, hne.1⟩
      · rw [if_neg hne] at h
        simp at h
    all_goals simp at h
  · simp at h

/-- Every branch of the probe returns the descriptor string verbatim. -/
theorem check_proxy_socket_link (env : ProbeEnv) (l : Str) :
    (check_proxy_socket env l).link = l := by
  unfold check_proxy_socket
  repeat' split
  all_goals rfl

/-- The probe never reports an empty resolved host: the host, when present,
is the server field of a parsed descriptor, which is nonempty. -/
theorem check_proxy_socket_host_ne_nil (env : ProbeEnv) (l : Str) :
    (check_proxy_socket env l).host ≠ some ([] : Str) := by
  unfold check_proxy_socket
  cases hp : parse_tg_link l with
  | none => simp
  | some t =>
    obtain ⟨host, port, secret⟩ := t
    have hne : host ≠ [] := (parse_tg_link_fields l host port secret hp).2.2.2
    repeat' split
    all_goals simp_all

/-- Splitting never yields the empty list of fields. -/
theorem pySplitOn_ne_nil (sep : Char) (s : Str) : pySplitOn sep s ≠ [] := by
  cases s with
  | nil => simp [pySplitOn]
  | cons c cs =>
    unfold pySplitOn
    split
    · simp
    · split <;> simp

/-- Joining the fields with the separator restores the split string. -/
theorem joinOn_pySplitOn (sep : Char) (s : Str) :
    joinOn sep (pySplitOn sep s) = s := by
  induction s with
  | nil => rfl
  | cons c cs ih =>
    unfold pySplitOn
    split
    · rename_i hc
      cases hsp : pySplitOn sep cs with
      | nil => exact absurd hsp (pySplitOn_ne_nil sep cs)
      | cons l ls =>
        rw [hsp] at ih
        simp only [joinOn, hc]
        simpa using ih
    · rename_i hc
      cases hsp : pySplitOn sep cs with
      | nil => exact absurd hsp (pySplitOn_ne_nil sep cs)
      | cons l ls =>
        rw [hsp] at ih
        cases ls with
        | nil => simpa [joinOn] using ih
        | cons l2 ls2 => simpa [joinOn] using ih

/-- No field produced by splitting contains the separator. -/
theorem pySplitOn_not_mem_sep (sep : Char) (s : Str) :
    ∀ l ∈ pySplitOn sep s, sep ∉ l := by
  induction s with
  | nil =>
    intro l hl
    simp [pySplitOn] at hl
    simp [hl]
  | cons c cs ih =>
    intro l hl
    unfold pySplitOn at hl
    split at hl
    · rename_i hc
      rcases List.mem_cons.mp hl with rfl | hl2
      · simp
      · exact ih l hl2
    · rename_i hc
      cases hsp : pySplitOn sep cs with
      | nil => exact absurd hsp (pySplitOn_ne_nil sep cs)
      | cons l1 ls =>
        rw [hsp] at hl
        rcases List.mem_cons.mp hl with rfl | hl2
        · intro hmem
          rcases List.mem_cons.mp hmem with rfl | hmem2
          · exact hc rfl
          · exact ih l1 (hsp ▸ List.mem_cons_self l1 ls) hmem2
        · exact ih l (hsp ▸ List.mem_cons_of_mem l1 hl2)

/-- Every entry kept by the aggregation loop is a successful input result
(with its resolved host present). -/
theorem mem_collectWorking (rs : List (Bool × Int × Str × Option Str)) (seen : List Str)
    (w : Str × Int × Str) (hw : w ∈ collectWorking rs seen) :
    (true, w.2.1, w.1, some w.2.2) ∈ rs := by
  induction rs generalizing seen with
  | nil => simp [collectWorking] at hw
  | cons r rs ih =>
    obtain ⟨success, latency, link, ip⟩ := r
    cases ip with
    | none =>
      simp only [collectWorking] at hw
      exact List.mem_cons_of_mem _ (ih seen hw)
    | some h =>
      simp only [collectWorking] at hw
      split at hw
      · split at hw
        · split at hw
          · exact List.mem_cons_of_mem _ (ih seen hw)
          · rename_i hs hne hnotin
            rcases List.mem_cons.mp hw with rfl | hw2
            · subst hs
              exact List.mem_cons_self _ _
            · exact List.mem_cons_of_mem _ (ih (h :: seen) hw2)
        · exact List.mem_cons_of_mem _ (ih seen hw)
      · exact List.mem_cons_of_mem _ (ih seen hw)

/-- Once a host is recorded as seen, the aggregation loop emits no further
entry for it. -/
theorem collectWorking_filter_of_seen (rs : List (Bool × Int × Str × Option Str))
    (seen : List Str) (h : Str) (hseen : h ∈ seen) :
    (collectWorking rs seen).filter (fun w => decide (w.2.2 = h)) = [] := by
  induction rs generalizing seen with
  | nil => rfl
  | cons r rs ih =>
    obtain ⟨success, latency, link, ip⟩ := r
    cases ip with
    | none =>
      simp only [collectWorking]
      exact ih seen hseen
    | some h2 =>
      simp only [collectWorking]
      split
      · split
        · split
          · exact ih seen hseen
          · rename_i hs hne hnotin
            have hne2 : h2 ≠ h := fun e => hnotin (e ▸ hseen)
            rw [List.filter_cons]
            simp only [hne2, decide_eq_true_eq, if_false, decide_False]
            exact ih (h2 :: seen) (List.mem_cons_of_mem _ hseen)
        · exact ih seen hseen
      · exact ih seen hseen

/-- Main dedup lemma: if the first successful result for host `h` (nonempty,
not yet seen) is `(true, lat, link, some h)`, then the aggregation loop
emits exactly one entry for `h`, built from that first result. -/
theorem collectWorking_filter_find (rs : List (Bool × Int × Str × Option Str))
    (seen : List Str) (h : Str) (lat : Int) (link : Str)
    (hne : h ≠ []) (hseen : h ∉ seen)
    (hfind : rs.find? (fun r => r.1 && decide (r.2.2.2 = some h)) = some (true, lat, link, some h)) :
    (collectWorking rs seen).filter (fun w => decide (w.2.2 = h)) = [(link, lat, h)] := by
  induction rs generalizing seen with
  | nil => simp at hfind
  | cons r rs ih =>
    obtain ⟨success, latency, lnk, ip⟩ := r
    by_cases hq : (success && decide (ip = some h)) = true
    · rw [@List.find?_cons_of_pos _ (fun r => r.1 && decide (r.2.2.2 = some h))
        (success, latency, lnk, ip) rs hq] at hfind
      simp only [Option.some.injEq, Prod.mk.injEq] at hfind
      obtain ⟨e1, e2, e3, e4⟩ := hfind
      subst e1; subst e2; subst e3; subst e4
      simp only [collectWorking]
      rw [if_pos trivial, if_pos hne, if_neg hseen]
      rw [List.filter_cons]
      simp only [decide_True, decide_eq_true_eq, if_true]
      rw [collectWorking_filter_of_seen rs (h :: seen) h (List.mem_cons_self h seen)]
    · rw [@List.find?_cons_of_neg _ (fun r => r.1 && decide (r.2.2.2 = some h))
        (success, latency, lnk, ip) rs hq] at hfind
      simp only [Bool.and_eq_true, decide_eq_true_eq, not_and] at hq
      cases ip with
      | none =>
        simp only [collectWorking]
        exact ih seen hseen hfind
      | some h2 =>
        simp only [collectWorking]
        split
        · rename_i hs
          have hne2 : h2 ≠ h := by
            intro e
            exact hq hs (by rw [e])
          split
          · split
            · exact ih seen hseen hfind
            · rename_i hA hB
              rw [List.filter_cons]
              simp only [hne2, decide_eq_true_eq, if_false, decide_False]
              exact ih (h2 :: seen) (by
                intro hmem
                rcases List.mem_cons.mp hmem with e | hm
                · exact hne2 e.symm
                · exact hseen hm) hfind
          · exact ih seen hseen hfind
        · exact ih seen hseen hfind

/-- Every gathered result is the probe of one of the candidates. -/
theorem mem_probeAll (envs : Nat → ProbeEnv) (ps : List Str) (i : Nat)
    (r : Bool × Int × Str × Option Str) (hr : r ∈ probeAll envs ps i) :
    ∃ j p, p ∈ ps ∧ r = probeResult (check_proxy_socket (envs j) p) := by
  induction ps generalizing i with
  | nil => simp [probeAll] at hr
  | cons p ps ih =>
    simp only [probeAll] at hr
    rcases List.mem_cons.mp hr with rfl | hr2
    · exact ⟨i, p, List.mem_cons_self p ps, rfl⟩
    · obtain ⟨j, p2, hp2, he⟩ := ih (i + 1) hr2
      exact ⟨j, p2, List.mem_cons_of_mem p hp2, he⟩

/-- Every hyperlink target of the rendered message is the link component of
some ranked entry. -/
theorem mem_messageLinks (ws : List (Str × Int × Str)) (c : Nat) (l : Str)
    (hl : l ∈ messageLinks ws c) :
    ∃ lat ip, (l, lat, ip) ∈ ws := by
  induction ws generalizing c with
  | nil => simp [messageLinks] at hl
  | cons w ws ih =>
    obtain ⟨p, lat, ip⟩ := w
    simp only [messageLinks] at hl
    split at hl
    · simp at hl
    · split at hl
      · rcases List.mem_cons.mp hl with rfl | hl2
        · exact ⟨lat, ip, List.mem_cons_self _ _⟩
        · obtain ⟨lat2, ip2, hm⟩ := ih (c + 1) hl2
          exact ⟨lat2, ip2, List.mem_cons_of_mem _ hm⟩
      · obtain ⟨lat2, ip2, hm⟩ := ih c hl
        exact ⟨lat2, ip2, List.mem_cons_of_mem _ hm⟩

/-! Claim theorems. -/

/-- Claim C1, counterexample. The claim says that for a well-formed
descriptor probed against a server that accepts the connection and sends
nothing within the 2-second secondary read timeout, the reported latency
equals the measured connect time alone. In the code, `start_time` is taken
before the connect and the latency is computed only after the secondary
read phase, so the reported latency also contains the payload-write time
and the full 2-second read wait: with a 100 ms connect, a 5 ms write and
the 2000 ms read timeout, the probe reports 2105 ms, not 100 ms (the
classification as reachable does hold). -/
theorem C1_counterexample :
    (check_proxy_socket ⟨true, 100, true, 5, ReadOutcome.timeout, 2000⟩
      ("tg://proxy?server=1.2.3.4&port=443&secret=ee00".toList)).success = true ∧
    (check_proxy_socket ⟨true, 100, true, 5, ReadOutcome.timeout, 2000⟩
      ("tg://proxy?server=1.2.3.4&port=443&secret=ee00".toList)).latency = 2105 ∧
    (check_proxy_socket ⟨true, 100, true, 5, ReadOutcome.timeout, 2000⟩
      ("tg://proxy?server=1.2.3.4&port=443&secret=ee00".toList)).latency
      ≠ (ProbeEnv.mk true 100 true 5 ReadOutcome.timeout 2000).connectMs := by
  decide

/-- Claim C1, amended. For every well-formed descriptor probed against a
server that accepts the TCP connection and sends nothing within the
2-second secondary read timeout, the probe classifies the proxy as
reachable and reports a latency equal to the whole elapsed time from the
start of the probe to the end of the secondary read wait: connect time
plus payload-write time plus the read-timeout wait. -/
theorem C1_amended (env : ProbeEnv) (link host : Str) (port : Int) (secret : Str)
    (hp : parse_tg_link link = some (host, port, secret))
    (hc : env.connect = true) (hw : env.writeOk = true)
    (hr : env.read = ReadOutcome.timeout) :
    probeResult (check_proxy_socket env link)
      = (true, env.connectMs + env.writeMs + env.readMs, link, some host) := by
  unfold check_proxy_socket probeResult
  rw [hp]
  simp [hc, hw, hr]

/-- Witness for C1_amended at a concrete descriptor and environment. -/
theorem C1_amended_witness :
    probeResult (check_proxy_socket ⟨true, 100, true, 5, ReadOutcome.timeout, 2000⟩
      ("tg://proxy?server=1.2.3.4&port=443&secret=ee00".toList))
      = (true, 2105, "tg://proxy?server=1.2.3.4&port=443&secret=ee00".toList,
         some ("1.2.3.4".toList)) := by
  have h := C1_amended ⟨true, 100, true, 5, ReadOutcome.timeout, 2000⟩
    ("tg://proxy?server=1.2.3.4&port=443&secret=ee00".toList)
    ("1.2.3.4".toList) 443 ("ee00".toList) (by decide) rfl rfl rfl
  exact h.trans (by decide)

/-- Claim C2. For every well-formed descriptor, the classification follows
the Strategy B outcome policy: a connection-level failure yields
not-reachable with latency 0; after a successful connect and payload write,
a zero-byte read yields not-reachable, a read timeout yields reachable,
and a read returning data yields reachable. -/
theorem C2_outcome_policy (env : ProbeEnv) (link host : Str) (port : Int) (secret : Str)
    (hp : parse_tg_link link = some (host, port, secret)) :
    (env.connect = false →
      probeResult (check_proxy_socket env link) = (false, 0, link, some host)) ∧
    (env.connect = true → env.writeOk = true → env.read = ReadOutcome.ret [] →
      probeResult (check_proxy_socket env link) = (false, 0, link, some host)) ∧
    (env.connect = true → env.writeOk = true → env.read = ReadOutcome.timeout →
      (check_proxy_socket env link).success = true) ∧
    (∀ b, b ≠ [] → env.connect = true → env.writeOk = true → env.read = ReadOutcome.ret b →
      (check_proxy_socket env link).success = true) := by
  unfold check_proxy_socket probeResult
  rw [hp]
  refine ⟨?_, ?_, ?_, ?_⟩
  · intro hc; simp [hc]
  · intro hc hw hr; simp [hc, hw, hr]
  · intro hc hw hr; simp [hc, hw, hr]
  · intro b hb hc hw hr; simp [hc, hw, hr, hb]

/-- Witness for C2_outcome_policy: the connection-refused case at a
concrete descriptor. -/
theorem C2_outcome_policy_witness :
    probeResult (check_proxy_socket ⟨false, 0, true, 0, ReadOutcome.timeout, 0⟩
      ("tg://proxy?server=1.2.3.4&port=443&secret=ee00".toList))
      = (false, 0, "tg://proxy?server=1.2.3.4&port=443&secret=ee00".toList,
         some ("1.2.3.4".toList)) :=
  (C2_outcome_policy ⟨false, 0, true, 0, ReadOutcome.timeout, 0⟩
    ("tg://proxy?server=1.2.3.4&port=443&secret=ee00".toList)
    ("1.2.3.4".toList) 443 ("ee00".toList) (by decide)).1 rfl

/-- Claim C7. The source leaks the connection on one exit path: if the
connection is established and the payload write (`await writer.drain()`)
then raises, the outer exception handler returns (False, 0, link, host)
without calling `writer.close()`. Evaluated here at a concrete input:
connection established, write fails — the probe exits with a connection
that was opened but never closed. -/
theorem C7_failing_input :
    (check_proxy_socket ⟨true, 100, false, 5, ReadOutcome.timeout, 0⟩
      ("tg://proxy?server=1.2.3.4&port=443&secret=ee00".toList)).connected = true ∧
    (check_proxy_socket ⟨true, 100, false, 5, ReadOutcome.timeout, 0⟩
      ("tg://proxy?server=1.2.3.4&port=443&secret=ee00".toList)).closed = false := by
  decide

/-- Claim C9. For every probe result with reachable = false the reported
latency is exactly 0; a descriptor that fails to parse additionally yields
resolved host None; consequently a nonzero latency is only ever reported
together with reachable = true. -/
theorem C9_failure_latency_zero (env : ProbeEnv) (link : Str) :
    ((check_proxy_socket env link).success = false →
      (check_proxy_socket env link).latency = 0) ∧
    (parse_tg_link link = none →
      (check_proxy_socket env link).host = none ∧
      (check_proxy_socket env link).success = false ∧
      (check_proxy_socket env link).latency = 0) ∧
    ((check_proxy_socket env link).latency ≠ 0 →
      (check_proxy_socket env link).success = true) := by
  cases hp : parse_tg_link link with
  | none =>
    refine ⟨?_, ?_, ?_⟩ <;> simp [check_proxy_socket, hp]
  | some t =>
    obtain ⟨host, port, secret⟩ := t
    unfold check_proxy_socket
    rw [hp]
    refine ⟨?_, ?_, ?_⟩
    · intro hs
      by_cases hc : env.connect <;> by_cases hw : env.writeOk <;>
        rcases hr : env.read with b | _ | _ <;>
          (first
            | (by_cases hb : b = [] <;> simp_all)
            | simp_all)
    · intro hnone
      exact Option.noConfusion hnone
    · intro hl
      by_cases hc : env.connect <;> by_cases hw : env.writeOk <;>
        rcases hr : env.read with b | _ | _ <;>
          (first
            | (by_cases hb : b = [] <;> simp_all)
            | simp_all)

/-- Witness for C9_failure_latency_zero: a refused connection reports
latency 0 and host present, and the parse-failure branch at a non-tg link
reports host None. -/
theorem C9_failure_latency_zero_witness :
    (check_proxy_socket ⟨false, 7, true, 0, ReadOutcome.timeout, 0⟩
      ("tg://proxy?server=1.2.3.4&port=443&secret=ee00".toList)).latency = 0 ∧
    (check_proxy_socket ⟨true, 7, true, 0, ReadOutcome.timeout, 0⟩
      ("not-a-proxy-link".toList)).host = none :=
  ⟨((C9_failure_latency_zero ⟨false, 7, true, 0, ReadOutcome.timeout, 0⟩
      ("tg://proxy?server=1.2.3.4&port=443&secret=ee00".toList)).1 (by decide)),
   ((C9_failure_latency_zero ⟨true, 7, true, 0, ReadOutcome.timeout, 0⟩
      ("not-a-proxy-link".toList)).2.1 (by decide)).1⟩

/-- Claim C3, counterexample. The claim says the fetcher returns exactly
the whitespace-trimmed non-empty lines of the body. The code only strips
the body as a whole before splitting, so for the body consisting of the
line with a trailing space, an empty line and one more line, the returned
sequence contains an empty string and a line with trailing whitespace. -/
theorem C3_counterexample :
    ([] : Str) ∈ get_proxies (FetchOutcome.success ("a \n\nb".toList)) ∧
    ("a ".toList) ∈ get_proxies (FetchOutcome.success ("a \n\nb".toList)) := by
  decide

/-- Claim C3, amended. On any transport error or non-success status the
fetcher returns the empty sequence; on success it returns the
newline-separated segments of the whole-body-stripped text, in original
order: joining the returned segments with newlines restores the stripped
body, and no returned segment contains a newline. Whitespace is removed
only at the two ends of the whole body, so interior empty lines and
per-line leading or trailing whitespace are preserved in the output. -/
theorem C3_amended :
    get_proxies FetchOutcome.error = [] ∧
    (∀ body : Str, joinOn '\n' (get_proxies (FetchOutcome.success body)) = pyStrip body) ∧
    (∀ body : Str, ∀ l ∈ get_proxies (FetchOutcome.success body), '\n' ∉ l) := by
  refine ⟨rfl, ?_, ?_⟩
  · intro body
    exact joinOn_pySplitOn '\n' (pyStrip body)
  · intro body l hl
    exact pySplitOn_not_mem_sep '\n' (pyStrip body) l hl

/-- Witness for C3_amended at a concrete body. -/
theorem C3_amended_witness :
    joinOn '\n' (get_proxies (FetchOutcome.success ("  a\nb \n".toList))) = "a\nb".toList ∧
    '\n' ∉ ("a".toList) :=
  ⟨(C3_amended.2.1 ("  a\nb \n".toList)).trans (by decide),
   C3_amended.2.2 ("  a\nb \n".toList) ("a".toList) (by decide)⟩

/-- Claim C4. The parser is a total function into an option type (the
embedding of "never raises": every Python exception path is a `none`
return), and whenever the `server`, `port` or `secret` query parameter is
missing or empty — which in `parse_qs` terms means the key is absent from
the parsed dictionary, since blank values are skipped — or the port value
does not parse as a base-10 integer, the result is the invalid value
`none`. -/
theorem C4_malformed_invalid (s : Str)
    (h : qsGet (urlQuery s) ("server".toList) = none ∨
         qsGet (urlQuery s) ("port".toList) = none ∨
         qsGet (urlQuery s) ("secret".toList) = none ∨
         (∃ p, qsGet (urlQuery s) ("port".toList) = some p ∧ pyInt p = none)) :
    parse_tg_link s = none := by
  unfold parse_tg_link
  split
  · split
    · rename_i server pv secret hs hpv hsec
      rcases h with h | h | h | ⟨p, hp, hi⟩
      · rw [hs] at h; exact Option.noConfusion h
      · rw [hpv] at h; exact Option.noConfusion h
      · rw [hsec] at h; exact Option.noConfusion h
      · rw [hpv] at hp
        injection hp with hp
        subst hp
        split
        · rw [hi]
        · rfl
    all_goals rfl
  · rfl

/-- Witness for C4_malformed_invalid: a descriptor with no port parameter
is rejected. -/
theorem C4_malformed_invalid_witness :
    parse_tg_link ("tg://proxy?server=1.2.3.4&secret=ee00".toList) = none :=
  C4_malformed_invalid ("tg://proxy?server=1.2.3.4&secret=ee00".toList)
    (Or.inr (Or.inl (by decide)))

/-- Claim C5, counterexample. The claim says every accepted descriptor has
a port in 1..65535. The code applies int() with no range check, so the
descriptor with port 70000 is accepted with port 70000, outside the
claimed range. -/
theorem C5_counterexample :
    parse_tg_link ("tg://proxy?server=1.2.3.4&port=70000&secret=ee00".toList)
      = some ("1.2.3.4".toList, 70000, "ee00".toList) ∧
    ¬((1 : Int) ≤ 70000 ∧ (70000 : Int) ≤ 65535) := by
  decide

/-- Claim C5, amended. For every string the parser accepts, the port field
is exactly the base-10 integer value of the port query parameter; no range
restriction is applied, so the port may be 0, negative, or above 65535. -/
theorem C5_amended (s sv : Str) (n : Int) (sc : Str)
    (h : parse_tg_link s = some (sv, n, sc)) :
    ∃ p, qsGet (urlQuery s) ("port".toList) = some p ∧ pyInt p = some n :=
  (parse_tg_link_fields s sv n sc h).2.1

/-- Witness for C5_amended at the out-of-range descriptor. -/
theorem C5_amended_witness :
    ∃ p, qsGet (urlQuery ("tg://proxy?server=1.2.3.4&port=70000&secret=ee00".toList))
        ("port".toList) = some p ∧ pyInt p = some 70000 :=
  C5_amended ("tg://proxy?server=1.2.3.4&port=70000&secret=ee00".toList)
    ("1.2.3.4".toList) 70000 ("ee00".toList) (by decide)

/-- Claim C6. The ranked output contains only entries built from reachable
results, and whenever at least two reachable results share the same
resolved host (here: at least two results satisfy success together with
that host; the host is nonempty, which holds of every host the probe can
produce, see check_proxy_socket_host_ne_nil), the ranked output contains
exactly one entry for that host, namely the one built from the first such
result in result order. -/
theorem C6_dedup (results : List (Bool × Int × Str × Option Str)) (h : Str)
    (hne : h ≠ [])
    (htwo : 2 ≤ results.countP (fun r => r.1 && decide (r.2.2.2 = some h))) :
    (∀ w ∈ rankProxies results, (true, w.2.1, w.1, some w.2.2) ∈ results) ∧
    ∃ lat link,
      results.find? (fun r => r.1 && decide (r.2.2.2 = some h))
        = some (true, lat, link, some h) ∧
      (rankProxies results).filter (fun w => decide (w.2.2 = h)) = [(link, lat, h)] := by
  constructor
  · intro w hw
    unfold rankProxies sortWorking at hw
    exact mem_collectWorking results [] w ((List.mem_insertionSort _).mp hw)
  · have hex : ∃ r ∈ results, (r.1 && decide (r.2.2.2 = some h)) = true :=
      List.countP_pos_iff.mp (lt_of_lt_of_le (by norm_num) htwo)
    have hsome : (results.find? (fun r => r.1 && decide (r.2.2.2 = some h))).isSome = true :=
      List.find?_isSome.mpr hex
    obtain ⟨r, hr⟩ := Option.isSome_iff_exists.mp hsome
    obtain ⟨s1, lat, link, ip⟩ := r
    have hpred := List.find?_some hr
    simp only [Bool.and_eq_true, decide_eq_true_eq] at hpred
    obtain ⟨hs1, hip⟩ := hpred
    subst hs1
    subst hip
    refine ⟨lat, link, hr, ?_⟩
    have hfilter := collectWorking_filter_find results [] h lat link hne
      (List.not_mem_nil h) hr
    unfold rankProxies sortWorking
    have hperm := (List.perm_insertionSort
      (fun a b : Str × Int × Str => a.2.1 ≤ b.2.1) (collectWorking results [])).filter
      (fun w => decide (w.2.2 = h))
    rw [hfilter] at hperm
    exact List.perm_singleton.mp hperm

/-- Witness for C6_dedup: two reachable results for the same host, output
keeps exactly the first. -/
theorem C6_dedup_witness :
    (∀ w ∈ rankProxies [(true, 5, "a".toList, some ("h".toList)),
        (true, 3, "b".toList, some ("h".toList))],
      (true, w.2.1, w.1, some w.2.2) ∈ [(true, (5 : Int), "a".toList, some ("h".toList)),
        (true, 3, "b".toList, some ("h".toList))]) ∧
    ∃ lat link,
      ([(true, (5 : Int), "a".toList, some ("h".toList)),
        (true, 3, "b".toList, some ("h".toList))].find?
          (fun r => r.1 && decide (r.2.2.2 = some ("h".toList))))
        = some (true, lat, link, some ("h".toList)) ∧
      (rankProxies [(true, 5, "a".toList, some ("h".toList)),
          (true, 3, "b".toList, some ("h".toList))]).filter
          (fun w => decide (w.2.2 = "h".toList)) = [(link, lat, "h".toList)] :=
  C6_dedup [(true, 5, "a".toList, some ("h".toList)),
    (true, 3, "b".toList, some ("h".toList))] ("h".toList) (by decide) (by decide)

/-- Claim C8. Every ranked output of the pipeline (the latency-ascending
sort of the deduplicated reachable results) has adjacent latencies in
nondecreasing order. -/
theorem C8_ranked_sorted (results : List (Bool × Int × Str × Option Str)) :
    List.Chain' (fun a b : Str × Int × Str => a.2.1 ≤ b.2.1) (rankProxies results) := by
  unfold rankProxies sortWorking
  haveI hto : IsTotal (Str × Int × Str) (fun a b => a.2.1 ≤ b.2.1) :=
    ⟨fun a b => le_total _ _⟩
  haveI htr : IsTrans (Str × Int × Str) (fun a b => a.2.1 ≤ b.2.1) :=
    ⟨fun a b c hab hbc => le_trans hab hbc⟩
  exact List.Pairwise.chain' (List.sorted_insertionSort _ _)

/-- Claim C10. Hyperlink targets are carried verbatim: the renderer is the
identity, the probe returns the descriptor string unchanged in every
branch, and every hyperlink target of the published message is one of the
first MAX_PROXIES_TO_CHECK entries of the fetched candidate list. -/
theorem C10_links_verbatim (envs : Nat → ProbeEnv) (proxies : List Str) :
    (∀ s, format_telegram_link s = s) ∧
    (∀ env l, (check_proxy_socket env l).link = l) ∧
    (∀ l ∈ publishedLinks envs proxies, l ∈ proxies.take MAX_PROXIES_TO_CHECK) := by
  refine ⟨fun s => rfl, check_proxy_socket_link, ?_⟩
  intro l hl
  obtain ⟨lat, ip, hmem⟩ := mem_messageLinks _ 0 l hl
  have hmem2 : (l, lat, ip) ∈ check_all_proxies envs proxies := by
    have hperm := List.perm_insertionSort
      (fun a b : Str × Int × Str => a.2.1 ≤ b.2.1) (check_all_proxies envs proxies)
    exact hperm.mem_iff.mp hmem
  unfold check_all_proxies at hmem2
  have hres := mem_collectWorking _ [] (l, lat, ip) hmem2
  obtain ⟨j, p, hp, he⟩ := mem_probeAll envs _ 0 _ hres
  have hlink : l = p := by
    have h3 := congrArg (fun t : Bool × Int × Str × Option Str => t.2.2.1) he
    simpa [probeResult, check_proxy_socket_link] using h3
  exact hlink ▸ hp

/-- Witness for C10_links_verbatim: with one candidate that probes
reachable, the published link is that candidate. -/
theorem C10_links_verbatim_witness :
    ("tg://proxy?server=1.2.3.4&port=443&secret=ee00".toList)
      ∈ (["tg://proxy?server=1.2.3.4&port=443&secret=ee00".toList] : List Str).take
          MAX_PROXIES_TO_CHECK :=
  (C10_links_verbatim (fun _ => ⟨true, 100, true, 5, ReadOutcome.timeout, 2000⟩)
    ["tg://proxy?server=1.2.3.4&port=443&secret=ee00".toList]).2.2
    ("tg://proxy?server=1.2.3.4&port=443&secret=ee00".toList) (by decide)
